import Mathlib

/-
Verification development for the tf_vqvae repository (helpers/model.py).

The file shallowly embeds the Keras model-construction code: a 3-D feature
tensor type (height x width x channels, channels-last as in TensorFlow), the
layer vocabulary used by the source (Conv2D, Conv2DTranspose, LeakyReLU,
BatchNormalization, ReLU activations, tanh), the ResBlock layer class, and the
three builders get_encoder / get_decoder / get_image_vqvae.  Builders return
the ordered list of layers they stack (the functional-API graph is a straight
chain in the source), together with the declared input shape; a separate shape
interpreter and a value interpreter give the semantics of applying the chain.

The batch dimension is omitted: every layer in the source acts identically and
independently on each image of a batch, so per-image semantics determine the
per-batch semantics, and batch size is preserved by construction.

helpers/constants.py and helpers/quantizers.py are part of the repository but
are not in the provided sources; the constants are therefore passed around as
an explicit record, and the vector-quantizer forward pass is modelled from the
specification (see the doc comments on the definitions concerned).
-/

set_option linter.unusedVariables false

namespace VQVAE

/-- One image-like feature tensor: height, width, channel count, and the value
at each (row, column, channel) index.  Indices outside the declared extent are
irrelevant to every theorem below. -/
structure Tensor3 where
  h : ℕ
  w : ℕ
  c : ℕ
  data : ℕ → ℕ → ℕ → ℝ

/-- Static shape of a tensor, in the order reported by TensorFlow for one
image: (height, width, channels). -/
def Tensor3.shape (t : Tensor3) : ℕ × ℕ × ℕ := (t.h, t.w, t.c)

/-- Pointwise addition, as used by the residual connection `x + self.convs(x)`
in ResBlock.call.  In every shape-valid use the two operands have equal
shapes; the left operand's shape is kept. -/
def Tensor3.add (x y : Tensor3) : Tensor3 :=
  ⟨x.h, x.w, x.c, fun i j k => x.data i j k + y.data i j k⟩

/-- Pointwise map of a scalar function, used for activation layers. -/
def Tensor3.map (f : ℝ → ℝ) (x : Tensor3) : Tensor3 :=
  ⟨x.h, x.w, x.c, fun i j k => f (x.data i j k)⟩

/-- Convolution kernel weights: (kernel row, kernel column, input channel,
output channel) → weight. -/
def ConvW : Type := ℕ → ℕ → ℕ → ℕ → ℝ

/-- The all-zero convolution kernel. -/
def zeroConvW : ConvW := fun _ _ _ _ => 0

/-- The all-zero bias vector. -/
def zeroBiasFn : ℕ → ℝ := fun _ => 0

/-- Inference-time parameters of a Keras BatchNormalization layer: per-channel
scale gamma, offset beta, moving mean and moving variance. -/
structure BNParams where
  gamma : ℕ → ℝ
  beta : ℕ → ℝ
  movingMean : ℕ → ℝ
  movingVar : ℕ → ℝ

/-- Output extent of a dimension of extent n under a stride-s convolution with
"same" padding: ceil(n / s), as computed by TensorFlow. -/
def sameOut (n s : ℕ) : ℕ := (n + s - 1) / s

/-- Output extent of a dimension of extent n under a stride-s, kernel-k
convolution with "valid" padding: floor((n - k) / s) + 1, written without
integer subtraction pitfalls. -/
def validOut (n k s : ℕ) : ℕ := (n + s - k) / s

noncomputable section

/-- Value of tensor t at a possibly out-of-range integer position, with the
zero padding used by "same"-padding convolutions. -/
def Tensor3.getZ (t : Tensor3) (i j : ℤ) (ch : ℕ) : ℝ :=
  if 0 ≤ i ∧ i < (t.h : ℤ) ∧ 0 ≤ j ∧ j < (t.w : ℤ) then t.data i.toNat j.toNat ch else 0

/-- Leading padding of a dimension of extent n for a stride-s, kernel-k
"same"-padding convolution, following TensorFlow's convention
pad_total = max((out - 1) * s + k - n, 0), pad_beg = pad_total / 2. -/
def samePadBeg (n s k : ℕ) : ℤ := max (((sameOut n s : ℤ) - 1) * s + k - n) 0 / 2

/-- Semantics of tf.keras.layers.Conv2D with padding = "same". -/
def conv2dSame (filters k s : ℕ) (useBias : Bool) (w : ConvW) (b : ℕ → ℝ)
    (x : Tensor3) : Tensor3 :=
  { h := sameOut x.h s
    w := sameOut x.w s
    c := filters
    data := fun i j co =>
      (∑ ki ∈ Finset.range k, ∑ kj ∈ Finset.range k, ∑ ci ∈ Finset.range x.c,
        w ki kj ci co *
          x.getZ ((i : ℤ) * s + ki - samePadBeg x.h s k)
                 ((j : ℤ) * s + kj - samePadBeg x.w s k) ci)
      + (if useBias then b co else 0) }

/-- Semantics of tf.keras.layers.Conv2D with padding = "valid". -/
def conv2dValid (filters k s : ℕ) (useBias : Bool) (w : ConvW) (b : ℕ → ℝ)
    (x : Tensor3) : Tensor3 :=
  { h := validOut x.h k s
    w := validOut x.w k s
    c := filters
    data := fun i j co =>
      (∑ ki ∈ Finset.range k, ∑ kj ∈ Finset.range k, ∑ ci ∈ Finset.range x.c,
        w ki kj ci co * x.data (i * s + ki) (j * s + kj) ci)
      + (if useBias then b co else 0) }

/-- Leading padding of the equivalent forward convolution for a stride-s,
kernel-k "same"-padding transposed convolution: the forward convolution maps
the (n * s)-sized output back to the n-sized input, so its total padding is
max(k - s, 0). -/
def transPadBeg (k s : ℕ) : ℤ := max ((k : ℤ) - s) 0 / 2

/-- Semantics of tf.keras.layers.Conv2DTranspose with padding = "same" (no
bias: every transposed convolution in the source passes use_bias = False or
leaves the output linear).  Each input position scatters a copy of the kernel
into the output; output extent is input extent times the stride. -/
def conv2dTransposeSame (filters k s : ℕ) (w : ConvW) (x : Tensor3) : Tensor3 :=
  { h := x.h * s
    w := x.w * s
    c := filters
    data := fun oi oj co =>
      ∑ ki ∈ Finset.range k, ∑ kj ∈ Finset.range k, ∑ ci ∈ Finset.range x.c,
        (let ri : ℤ := (oi : ℤ) + transPadBeg k s - ki
         let rj : ℤ := (oj : ℤ) + transPadBeg k s - kj
         if 0 ≤ ri ∧ ri % s = 0 ∧ ri / s < (x.h : ℤ) ∧
            0 ≤ rj ∧ rj % s = 0 ∧ rj / s < (x.w : ℤ)
         then w ki kj ci co * x.data (ri / s).toNat (rj / s).toNat ci
         else 0) }

/-- Scalar semantics of tf.keras.activations.relu. -/
def reluAct (v : ℝ) : ℝ := max v 0

/-- Scalar semantics of tf.keras.layers.LeakyReLU with its Keras default
negative slope alpha = 0.3. -/
def leakyReluAct (v : ℝ) : ℝ := if v < 0 then 0.3 * v else v

/-- Inference-mode semantics of BatchNormalization on one channel value, with
the Keras default epsilon 0.001. -/
def bnAct (p : BNParams) (ch : ℕ) (v : ℝ) : ℝ :=
  p.gamma ch * (v - p.movingMean ch) / Real.sqrt (p.movingVar ch + 0.001) + p.beta ch

/-- BatchNormalization applied to a whole tensor (inference mode). -/
def bnApply (p : BNParams) (x : Tensor3) : Tensor3 :=
  ⟨x.h, x.w, x.c, fun i j ch => bnAct p ch (x.data i j ch)⟩

end

/-- The layer vocabulary appearing inside a ResBlock's Sequential stack:
ReLU activations, the two convolutions, and the optional BatchNormalization. -/
inductive SLayer where
  | relu_act : SLayer
  | conv_same (filters k s : ℕ) (useBias : Bool) (w : ConvW) (b : ℕ → ℝ) : SLayer
  | conv_valid (filters k s : ℕ) (useBias : Bool) (w : ConvW) (b : ℕ → ℝ) : SLayer
  | batch_norm (p : BNParams) : SLayer

/-- Learned parameters of one ResBlock: the two convolutions (with biases,
since ResBlock builds its Conv2D layers with use_bias = True) and the optional
BatchNormalization parameters. -/
structure ResBlockParams where
  w1 : ConvW
  b1 : ℕ → ℝ
  w2 : ConvW
  b2 : ℕ → ℝ
  bn : BNParams

/-- The list self.convs of ResBlock.__init__ (helpers/model.py lines 15-25):
the base stack [ReLU, 3x3 same-padding Conv2D to mid_channels, ReLU, 1x1
valid-padding Conv2D to out_channels], with a BatchNormalization inserted at
index 2 when bn is set; mid_channels defaults to out_channels when None. -/
def ResBlock.convLayers (out_channels : ℕ) (mid_channels : Option ℕ) (bn : Bool)
    (p : ResBlockParams) : List SLayer :=
  let mid := mid_channels.getD out_channels
  let base : List SLayer :=
    [SLayer.relu_act,
     SLayer.conv_same mid 3 1 true p.w1 p.b1,
     SLayer.relu_act,
     SLayer.conv_valid out_channels 1 1 true p.w2 p.b2]
  if bn then base.insertIdx 2 (SLayer.batch_norm p.bn) else base

noncomputable section

/-- Value semantics of one SLayer. -/
def SLayer.apply (l : SLayer) (x : Tensor3) : Tensor3 :=
  match l with
  | .relu_act => x.map reluAct
  | .conv_same filters k s useBias w b => conv2dSame filters k s useBias w b x
  | .conv_valid filters k s useBias w b => conv2dValid filters k s useBias w b x
  | .batch_norm p => bnApply p x

/-- Sequential application of a ResBlock's inner stack, in list order, as
tf.keras.Sequential does. -/
def applySLayers (ls : List SLayer) (x : Tensor3) : Tensor3 :=
  ls.foldl (fun t l => l.apply t) x

/-- ResBlock.call (helpers/model.py line 29): the residual output
x + self.convs(x). -/
def ResBlock.call (out_channels : ℕ) (mid_channels : Option ℕ) (bn : Bool)
    (p : ResBlockParams) (x : Tensor3) : Tensor3 :=
  x.add (applySLayers (ResBlock.convLayers out_channels mid_channels bn p) x)

end

/-- The layer vocabulary of the encoder and decoder chains built by
get_encoder and get_decoder.  Every top-level Conv2D in the source uses "same"
padding, so only that variant appears here; a ResBlock occurs as a single
layer carrying its own configuration and parameters. -/
inductive Layer where
  | conv2d (filters k s : ℕ) (useBias : Bool) (w : ConvW) (b : ℕ → ℝ) : Layer
  | conv2d_transpose (filters k s : ℕ) (w : ConvW) : Layer
  | leaky_relu : Layer
  | batch_norm (p : BNParams) : Layer
  | res_block (out_channels : ℕ) (mid_channels : Option ℕ) (bn : Bool)
      (p : ResBlockParams) : Layer
  | tanh_act : Layer

/-- Static shape inference for one layer, matching the value semantics
below. -/
def layerOutShape (l : Layer) (sh : ℕ × ℕ × ℕ) : ℕ × ℕ × ℕ :=
  match l, sh with
  | .conv2d filters _ s _ _ _, (h, w, _) => (sameOut h s, sameOut w s, filters)
  | .conv2d_transpose filters _ s _, (h, w, _) => (h * s, w * s, filters)
  | .leaky_relu, sh => sh
  | .batch_norm _, sh => sh
  | .res_block _ _ _ _, sh => sh
  | .tanh_act, sh => sh

/-- Static shape inference along a layer chain (the source relies on this via
encoder.output_shape). -/
def seqOutShape (ls : List Layer) (sh : ℕ × ℕ × ℕ) : ℕ × ℕ × ℕ :=
  ls.foldl (fun s l => layerOutShape l s) sh

noncomputable section

/-- Value semantics of one top-level layer. -/
def Layer.apply (l : Layer) (x : Tensor3) : Tensor3 :=
  match l with
  | .conv2d filters k s useBias w b => conv2dSame filters k s useBias w b x
  | .conv2d_transpose filters k s w => conv2dTransposeSame filters k s w x
  | .leaky_relu => x.map leakyReluAct
  | .batch_norm p => bnApply p x
  | .res_block oc mc bn p => ResBlock.call oc mc bn p x
  | .tanh_act => x.map Real.tanh

/-- Sequential application of a top-level layer chain. -/
def applyLayers (ls : List Layer) (x : Tensor3) : Tensor3 :=
  ls.foldl (fun t l => l.apply t) x

end

/-- Learned parameters of the encoder: the two strided convolutions (built
with use_bias = False), their BatchNormalizations, and per-index parameters
for the residual blocks and their trailing BatchNormalizations. -/
structure EncoderParams where
  cw1 : ConvW
  bn1 : BNParams
  cw2 : ConvW
  bn2 : BNParams
  resP : ℕ → ResBlockParams
  resBN : ℕ → BNParams

/-- The layer chain built by get_encoder (helpers/model.py lines 32-60): two
stride-2 4x4 same-padding convolutions, each followed by LeakyReLU and
BatchNormalization, then num_resblocks ResBlocks (bn = batchnorm), each
followed by a BatchNormalization exactly when batchnorm is set. -/
def get_encoder_layers (latent_dim num_resblocks : ℕ) (batchnorm : Bool)
    (p : EncoderParams) : List Layer :=
  [Layer.conv2d latent_dim 4 2 false p.cw1 zeroBiasFn,
   Layer.leaky_relu,
   Layer.batch_norm p.bn1,
   Layer.conv2d latent_dim 4 2 false p.cw2 zeroBiasFn,
   Layer.leaky_relu,
   Layer.batch_norm p.bn2]
  ++ (List.range num_resblocks).flatMap (fun i =>
       Layer.res_block latent_dim none batchnorm (p.resP i) ::
         (if batchnorm then [Layer.batch_norm (p.resBN i)] else []))

/-- A built Keras functional model: its declared input shape and the chain of
layers from input to output. -/
structure KerasModel where
  inputShape : ℕ × ℕ × ℕ
  layers : List Layer

/-- Static output shape of a built model, as encoder.output_shape reports it
(without the batch dimension). -/
def KerasModel.output_shape (m : KerasModel) : ℕ × ℕ × ℕ :=
  seqOutShape m.layers m.inputShape

/-- get_encoder (helpers/model.py lines 32-60) as a built model. -/
def get_encoder (latent_dim : ℕ) (input_shape : ℕ × ℕ × ℕ) (num_resblocks : ℕ)
    (batchnorm : Bool) (p : EncoderParams) : KerasModel :=
  ⟨input_shape, get_encoder_layers latent_dim num_resblocks batchnorm p⟩

/-- Learned parameters of the decoder: the initial convolution, the residual
blocks, the three transposed convolutions and the two BatchNormalizations. -/
structure DecoderParams where
  cw0 : ConvW
  resP : ℕ → ResBlockParams
  tw1 : ConvW
  bn1 : BNParams
  tw2 : ConvW
  bn2 : BNParams
  tw3 : ConvW

/-- The layer chain built by get_decoder (helpers/model.py lines 63-94): one
stride-1 4x4 same-padding convolution, then num_resblocks ResBlocks built with
ResBlock's default bn = False, then two stride-2 4x4 transposed convolutions
each followed by LeakyReLU and BatchNormalization, then a final stride-1 4x4
transposed convolution to num_channels channels, then tanh. -/
def get_decoder_layers (latent_dim num_resblocks num_channels : ℕ)
    (p : DecoderParams) : List Layer :=
  [Layer.conv2d latent_dim 4 1 false p.cw0 zeroBiasFn]
  ++ (List.range num_resblocks).map (fun i =>
       Layer.res_block latent_dim none false (p.resP i))
  ++ [Layer.conv2d_transpose latent_dim 4 2 p.tw1,
      Layer.leaky_relu,
      Layer.batch_norm p.bn1,
      Layer.conv2d_transpose latent_dim 4 2 p.tw2,
      Layer.leaky_relu,
      Layer.batch_norm p.bn2,
      Layer.conv2d_transpose num_channels 4 1 p.tw3,
      Layer.tanh_act]

/-- get_decoder (helpers/model.py lines 63-94) as a built model. -/
def get_decoder (input_shape : ℕ × ℕ × ℕ) (latent_dim num_resblocks num_channels : ℕ)
    (p : DecoderParams) : KerasModel :=
  ⟨input_shape, get_decoder_layers latent_dim num_resblocks num_channels p⟩

/-- Modelled from the spec: the module-level configuration constants imported
from helpers/constants.py, which is part of the repository but not among the
provided sources.  Their values are unspecified, so they are carried as an
explicit record. -/
structure Constants where
  EMBEDDING_DIM : ℕ
  NUM_EMBEDDINGS : ℕ
  IMAGE_HEIGHT : ℕ
  IMAGE_WIDTH : ℕ
  COMMITMENT_COST : ℝ
  DECAY : ℝ

/-- Modelled from the spec: the two vector-quantizer layer classes
VectorQuantizer and VectorQuantizerEMA from helpers/quantizers.py (repository
code not among the provided sources), recorded with the constructor arguments
get_image_vqvae passes them, plus the learned codebook (num_embeddings vectors
of dimension embedding_dim). -/
inductive VQLayer where
  | ema (embedding_dim num_embeddings : ℕ) (commitment_cost decay : ℝ)
      (codebook : ℕ → ℕ → ℝ) : VQLayer
  | plain (embedding_dim num_embeddings : ℕ) (commitment_cost : ℝ)
      (codebook : ℕ → ℕ → ℝ) : VQLayer

/-- The commitment-cost value the built quantizer carries. -/
def VQLayer.commitmentCost : VQLayer → ℝ
  | .ema _ _ cc _ _ => cc
  | .plain _ _ cc _ => cc

/-- The EMA decay value the built quantizer carries, when it is the EMA
variant. -/
def VQLayer.decayOpt : VQLayer → Option ℝ
  | .ema _ _ _ d _ => some d
  | .plain _ _ _ _ => none

/-- The codebook of the built quantizer. -/
def VQLayer.codebook : VQLayer → (ℕ → ℕ → ℝ)
  | .ema _ _ _ _ e => e
  | .plain _ _ _ e => e

/-- The codebook size of the built quantizer. -/
def VQLayer.numEmbeddings : VQLayer → ℕ
  | .ema _ k _ _ _ => k
  | .plain _ k _ _ => k

/-- Squared Euclidean distance between a D-dimensional vector and a codebook
entry, as the quantizer computes it. -/
def sqDistTo (D : ℕ) (v e : ℕ → ℝ) : ℝ :=
  ∑ d ∈ Finset.range D, (v d - e d) ^ 2

noncomputable section

open Classical in
/-- Modelled from the spec: nearest-codebook-index selection of the vector
quantizer (helpers/quantizers.py, not among the provided sources) — the index
of the minimum squared Euclidean distance over the K codebook entries, ties
broken by the lowest index, matching argmin tie-breaking. -/
def nearest_index (E : ℕ → ℕ → ℝ) (K D : ℕ) (v : ℕ → ℝ) : ℕ :=
  (List.range K).foldl
    (fun best k => if sqDistTo D v (E k) < sqDistTo D v (E best) then k else best) 0

/-- Modelled from the spec: the gather step of the vector quantizer — at each
spatial position, replace the latent vector by its nearest codebook entry.
The trailing (channel) dimension of the input is the vector dimension. -/
def quantizeT (vq : VQLayer) (x : Tensor3) : Tensor3 :=
  ⟨x.h, x.w, x.c, fun i j d =>
    vq.codebook (nearest_index vq.codebook vq.numEmbeddings x.c (fun e => x.data i j e)) d⟩

end

/-- A tensor of dual numbers for forward-mode differentiation: at every index,
a value and the directional derivative (tangent) of that value with respect to
the model input along a fixed input direction. -/
structure DTensor where
  h : ℕ
  w : ℕ
  c : ℕ
  val : ℕ → ℕ → ℕ → ℝ
  tan : ℕ → ℕ → ℕ → ℝ

/-- Pointwise addition of dual tensors (addition is linear, so tangents
add). -/
def DTensor.add (x y : DTensor) : DTensor :=
  ⟨x.h, x.w, x.c, fun i j k => x.val i j k + y.val i j k,
   fun i j k => x.tan i j k + y.tan i j k⟩

/-- Pointwise subtraction of dual tensors. -/
def DTensor.sub (x y : DTensor) : DTensor :=
  ⟨x.h, x.w, x.c, fun i j k => x.val i j k - y.val i j k,
   fun i j k => x.tan i j k - y.tan i j k⟩

/-- Semantics of tf.stop_gradient: the value passes through and the derivative
is blocked (tangent zero). -/
def stop_gradient (x : DTensor) : DTensor :=
  ⟨x.h, x.w, x.c, x.val, fun _ _ _ => 0⟩

noncomputable section

/-- Modelled from the spec: the quantization gather on dual numbers.  The
gathered values are codebook entries, which are parameters, not functions of
the layer input, so their derivative with respect to the input is zero; the
nearest-index selection is the non-differentiable step the straight-through
estimator bypasses.  (Any tangent assigned here is discarded by the
stop_gradient wrapper in the forward pass below.) -/
def quantizeD (vq : VQLayer) (x : DTensor) : DTensor :=
  ⟨x.h, x.w, x.c,
   fun i j d =>
     vq.codebook (nearest_index vq.codebook vq.numEmbeddings x.c (fun e => x.val i j e)) d,
   fun _ _ _ => 0⟩

/-- Modelled from the spec: the straight-through forward pass of the vector
quantizer, output = input + stop_gradient(quantized - input)
(helpers/quantizers.py is not among the provided sources). -/
def vq_forward_st (vq : VQLayer) (x : DTensor) : DTensor :=
  x.add (stop_gradient ((quantizeD vq x).sub x))

end

/-- The keyword-argument surface of get_image_vqvae (helpers/model.py lines
96-103): exactly the parameters the source function accepts, with its Python
defaults taken from helpers/constants.py where the signature says so. -/
structure VQVAEArgs where
  latent_dim : ℕ
  num_embeddings : ℕ
  image_shape : ℕ × ℕ
  num_channels : ℕ
  ema : Bool
  batchnorm : Bool
  name : String

/-- The learned parameters of a whole VQ-VAE: encoder parameters, decoder
parameters, and the quantizer codebook. -/
structure VQVAEParams where
  enc : EncoderParams
  dec : DecoderParams
  codebook : ℕ → ℕ → ℝ

/-- The composed model built by get_image_vqvae: declared input shape, the
encoder and decoder sub-models, the quantizer layer, and the model name. -/
structure VQVAEModel where
  inputShape : ℕ × ℕ × ℕ
  encoder : KerasModel
  vq : VQLayer
  decoder : KerasModel
  name : String

/-- get_image_vqvae (helpers/model.py lines 96-139).  The quantizer is built
with commitment_cost = COMMITMENT_COST and (in the EMA branch)
decay = DECAY, both module constants from helpers/constants.py — the
function's own argument list carries neither.  The encoder is built on
image_shape + (num_channels,); the decoder is built on
encoder.output_shape[1:] with num_resblocks and num_channels left at
get_decoder's Python defaults 2 and 3, because line 134 passes only the input
shape and latent_dim.  The build() calls of the source only force shape
resolution, which the shape interpreter performs definitionally. -/
def get_image_vqvae (C : Constants) (A : VQVAEArgs) (P : VQVAEParams) : VQVAEModel :=
  let vq_layer : VQLayer :=
    if A.ema then
      VQLayer.ema A.latent_dim A.num_embeddings C.COMMITMENT_COST C.DECAY P.codebook
    else
      VQLayer.plain A.latent_dim A.num_embeddings C.COMMITMENT_COST P.codebook
  let ishape : ℕ × ℕ × ℕ := (A.image_shape.1, A.image_shape.2, A.num_channels)
  let encoder := get_encoder A.latent_dim ishape 2 A.batchnorm P.enc
  let decoder := get_decoder encoder.output_shape A.latent_dim 2 3 P.dec
  ⟨ishape, encoder, vq_layer, decoder, A.name⟩

/-- Static output shape of the composed model: shape inference through the
encoder chain (the quantizer preserves shape) and then the decoder chain. -/
def VQVAEModel.output_shape (m : VQVAEModel) : ℕ × ℕ × ℕ :=
  seqOutShape m.decoder.layers (seqOutShape m.encoder.layers m.inputShape)

noncomputable section

/-- Forward value semantics of the composed model on one image that has
already passed input validation: encoder chain, quantizer gather, decoder
chain. -/
def VQVAEModel.forwardRaw (m : VQVAEModel) (x : Tensor3) : Tensor3 :=
  applyLayers m.decoder.layers (quantizeT m.vq (applyLayers m.encoder.layers x))

/-- The descriptive error text for a rejected input shape. -/
def shapeErr (got expected : ℕ × ℕ × ℕ) : String :=
  "Input tensor shape " ++ toString got ++
    " is incompatible with expected input shape " ++ toString expected

/-- Modelled from the spec: calling the composed model.  The input-shape
validation is performed by the tf.keras substrate — a functional Model built
on a fixed-shape Input rejects per-image shapes that differ from the declared
one instead of reshaping or truncating them (spec, section 7); the accepted
case runs the forward pass. -/
def VQVAEModel.callChecked (m : VQVAEModel) (x : Tensor3) : Except String Tensor3 :=
  if x.shape = m.inputShape then Except.ok (m.forwardRaw x)
  else Except.error (shapeErr x.shape m.inputShape)

end

noncomputable section

/-- The optional normalization of the spec's residual-block formula: applied
exactly when the block's bn flag is set. -/
def bnOptional (bn : Bool) (p : BNParams) (x : Tensor3) : Tensor3 :=
  if bn then bnApply p x else x

/-- Stated from the spec's wording for the residual block (refinement target
for claim C3): x + conv2(act(norm?(conv1(act(x))))), with conv1 a 3x3
same-padding convolution to mid channels, conv2 a 1x1 convolution to out
channels, rectified-linear activations before each convolution, and the
optional normalization between the two convolutions. -/
def resblock_spec (out mid : ℕ) (bn : Bool) (p : ResBlockParams) (x : Tensor3) : Tensor3 :=
  x.add (conv2dValid out 1 1 true p.w2 p.b2
    ((bnOptional bn p.bn (conv2dSame mid 3 1 true p.w1 p.b1 (x.map reluAct))).map reluAct))

end

/-- Stated from the spec's wording for the encoder (refinement target for
claim C4): one downsampling stage — a stride-2 4x4 convolution followed by a
leaky-rectified activation and a normalization step. -/
def downsample_block (latent_dim : ℕ) (w : ConvW) (bp : BNParams) : List Layer :=
  [Layer.conv2d latent_dim 4 2 false w zeroBiasFn, Layer.leaky_relu, Layer.batch_norm bp]

/-- Stated from the spec's wording for the encoder (refinement target for
claim C4): num_resblocks residual blocks in sequence, each optionally followed
by a normalization step. -/
def spec_res_stage (latent_dim num_resblocks : ℕ) (bn : Bool) (p : EncoderParams) : List Layer :=
  (List.range num_resblocks).flatMap (fun i =>
    [Layer.res_block latent_dim none bn (p.resP i)]
      ++ (if bn then [Layer.batch_norm (p.resBN i)] else []))

/-- Stated from the spec's wording for the encoder (refinement target for
claim C4): two downsampling stages, then the residual stage. -/
def encoder_spec_layers (latent_dim num_resblocks : ℕ) (bn : Bool) (p : EncoderParams) :
    List Layer :=
  downsample_block latent_dim p.cw1 p.bn1 ++ downsample_block latent_dim p.cw2 p.bn2
    ++ spec_res_stage latent_dim num_resblocks bn p

/-- Stated from the spec's wording for the decoder (refinement target for
claim C5): one upsampling stage — a stride-2 4x4 transposed convolution
followed by a leaky-rectified activation and a normalization step. -/
def upsample_block (latent_dim : ℕ) (w : ConvW) (bp : BNParams) : List Layer :=
  [Layer.conv2d_transpose latent_dim 4 2 w, Layer.leaky_relu, Layer.batch_norm bp]

/-- Stated from the spec's wording for the decoder (refinement target for
claim C5): a stride-1 4x4 convolution, num_resblocks residual blocks without
normalization inside, two upsampling stages, and a final stride-1 4x4
transposed convolution to num_channels channels followed only by the
hyperbolic-tangent squashing. -/
def decoder_spec_layers (latent_dim num_resblocks num_channels : ℕ) (p : DecoderParams) :
    List Layer :=
  [Layer.conv2d latent_dim 4 1 false p.cw0 zeroBiasFn]
    ++ (List.range num_resblocks).map (fun i => Layer.res_block latent_dim none false (p.resP i))
    ++ upsample_block latent_dim p.tw1 p.bn1
    ++ upsample_block latent_dim p.tw2 p.bn2
    ++ [Layer.conv2d_transpose num_channels 4 1 p.tw3, Layer.tanh_act]

/-- Recognizer used for claim C10: true on every layer that is not a residual
block with its inner normalization enabled. -/
def layer_res_without_bn : Layer → Bool
  | .res_block _ _ bn _ => !bn
  | _ => true

/-- Zero-initialized BatchNormalization parameters, for concrete instances. -/
def bn0 : BNParams := ⟨fun _ => 0, fun _ => 0, fun _ => 0, fun _ => 0⟩

/-- Zero-initialized residual-block parameters. -/
def rbP0 : ResBlockParams := ⟨zeroConvW, zeroBiasFn, zeroConvW, zeroBiasFn, bn0⟩

/-- Zero-initialized encoder parameters. -/
def encP0 : EncoderParams := ⟨zeroConvW, bn0, zeroConvW, bn0, fun _ => rbP0, fun _ => bn0⟩

/-- Zero-initialized decoder parameters. -/
def decP0 : DecoderParams := ⟨zeroConvW, fun _ => rbP0, zeroConvW, bn0, zeroConvW, bn0, zeroConvW⟩

/-- Zero-initialized whole-model parameters. -/
def params0 : VQVAEParams := ⟨encP0, decP0, fun _ _ => 0⟩

/-- A concrete valuation of the module constants, used for concrete
instances: EMBEDDING_DIM 16, NUM_EMBEDDINGS 32, IMAGE_HEIGHT 8, IMAGE_WIDTH 8,
COMMITMENT_COST 0, DECAY 0. -/
def consts0 : Constants := ⟨16, 32, 8, 8, 0, 0⟩

/-- A concrete argument record for get_image_vqvae with a single-channel
image: latent_dim 16, num_embeddings 32, image_shape (8, 8), num_channels 1,
ema and batchnorm set. -/
def argsC1 : VQVAEArgs := ⟨16, 32, (8, 8), 1, true, true, "vq_vae"⟩

/-- A concrete 4 x 4 x 1 zero tensor. -/
def x441 : Tensor3 := ⟨4, 4, 1, fun _ _ _ => 0⟩

/-- Formalization of claim C2 as stated: with the module constants fixed (they
are imports, not configuration), the configuration surface of get_image_vqvae
— its argument record together with the learned parameters — can supply any
desired commitment-cost value to the quantizer it builds. -/
def C2_claim_as_stated : Prop :=
  ∀ cc : ℝ, ∃ (A : VQVAEArgs) (P : VQVAEParams),
    (get_image_vqvae consts0 A P).vq.commitmentCost = cc

/- ------------------------------------------------------------------ -/
/- Theorems.                                                           -/
/- ------------------------------------------------------------------ -/

/-- The real hyperbolic tangent is at most one. -/
theorem tanh_le_one (x : ℝ) : Real.tanh x ≤ 1 := by
  rw [Real.tanh_eq_sinh_div_cosh, div_le_one (Real.cosh_pos x)]
  exact (Real.sinh_lt_cosh x).le

/-- The real hyperbolic tangent is at least minus one. -/
theorem neg_one_le_tanh (x : ℝ) : -1 ≤ Real.tanh x := by
  rw [Real.tanh_eq_sinh_div_cosh, le_div_iff₀ (Real.cosh_pos x)]
  have h := (Real.sinh_lt_cosh (-x)).le
  rw [Real.sinh_neg, Real.cosh_neg] at h
  nlinarith

/-- A stride-1 same-padding convolution preserves a spatial extent. -/
theorem sameOut_one (n : ℕ) : sameOut n 1 = n := by
  simp [sameOut]

/-- A 1x1 stride-1 valid-padding convolution preserves a spatial extent. -/
theorem validOut_one_one (n : ℕ) : validOut n 1 1 = n := by
  simp [validOut]

/-- Shape inference distributes over concatenation of layer chains. -/
theorem seqOutShape_append (l1 l2 : List Layer) (sh : ℕ × ℕ × ℕ) :
    seqOutShape (l1 ++ l2) sh = seqOutShape l2 (seqOutShape l1 sh) := by
  simp [seqOutShape, List.foldl_append]

/-- A chain of shape-preserving layers preserves the shape. -/
theorem seqOutShape_preserve (ls : List Layer)
    (h : ∀ l ∈ ls, ∀ sh, layerOutShape l sh = sh) :
    ∀ sh, seqOutShape ls sh = sh := by
  induction ls with
  | nil => intro sh; rfl
  | cons a t ih =>
    intro sh
    have ha : layerOutShape a sh = sh := h a (List.mem_cons_self a t) sh
    have ht : ∀ l ∈ t, ∀ sh2, layerOutShape l sh2 = sh2 := by
      intro l hl sh2
      exact h l (List.mem_cons_of_mem a hl) sh2
    calc seqOutShape (a :: t) sh = seqOutShape t (layerOutShape a sh) := rfl
      _ = seqOutShape t sh := by rw [ha]
      _ = sh := ih ht sh

/-- Residual blocks propagate the shape unchanged at the shape level. -/
theorem layerOutShape_res (oc : ℕ) (mc : Option ℕ) (bn : Bool) (p : ResBlockParams)
    (sh : ℕ × ℕ × ℕ) : layerOutShape (Layer.res_block oc mc bn p) sh = sh := by
  rcases sh with ⟨h, w, c⟩
  rfl

/-- BatchNormalization propagates the shape unchanged at the shape level. -/
theorem layerOutShape_bn (p : BNParams) (sh : ℕ × ℕ × ℕ) :
    layerOutShape (Layer.batch_norm p) sh = sh := by
  rcases sh with ⟨h, w, c⟩
  rfl

/-- The residual stage of the encoder is shape-preserving. -/
theorem enc_res_stage_preserve (latent_dim n : ℕ) (bn : Bool) (p : EncoderParams) :
    ∀ sh, seqOutShape ((List.range n).flatMap (fun i =>
      Layer.res_block latent_dim none bn (p.resP i) ::
        (if bn then [Layer.batch_norm (p.resBN i)] else []))) sh = sh := by
  apply seqOutShape_preserve
  intro l hl sh
  rw [List.mem_flatMap] at hl
  obtain ⟨i, _, hmem⟩ := hl
  rcases List.mem_cons.mp hmem with h | h
  · subst h; exact layerOutShape_res _ _ _ _ _
  · cases bn with
    | false => simp at h
    | true =>
      simp at h
      subst h
      exact layerOutShape_bn _ _

/-- The residual stage of the decoder is shape-preserving. -/
theorem dec_res_stage_preserve (latent_dim n : ℕ) (p : DecoderParams) :
    ∀ sh, seqOutShape ((List.range n).map (fun i =>
      Layer.res_block latent_dim none false (p.resP i))) sh = sh := by
  apply seqOutShape_preserve
  intro l hl sh
  rw [List.mem_map] at hl
  obtain ⟨i, _, rfl⟩ := hl
  exact layerOutShape_res _ _ _ _ _

/-- Mapping a singleton-producing function is a map, used to normalize the
encoder's residual stage when batchnorm is off. -/
theorem flatMap_singleton_eq_map {α β : Type} (l : List α) (f : α → β) :
    (l.flatMap fun a => [f a]) = l.map f := by
  induction l with
  | nil => rfl
  | cons a t ih => simp [List.flatMap_cons, ih]

/-- C3: a ResBlock built with out_channels equal to the input's channel count
and mid_channels left unspecified computes x + conv2(act(norm?(conv1(act(x)))))
— conv1 a 3x3 same-padding convolution to mid channels, conv2 a 1x1
convolution back to the input's channel count, rectified-linear activations
before each convolution, the optional normalization sitting between the two
convolutions exactly when bn is enabled — with mid_channels defaulting to
out_channels, the inner stack's output shape equal to the input's shape (so
the residual add is shape-valid), and the block's output shape equal to the
input's shape. -/
theorem C3_resblock_formula (bn : Bool) (p : ResBlockParams) (x : Tensor3) :
    ResBlock.call x.c none bn p x = resblock_spec x.c x.c bn p x
    ∧ ResBlock.convLayers x.c none bn p = ResBlock.convLayers x.c (some x.c) bn p
    ∧ (applySLayers (ResBlock.convLayers x.c none bn p) x).shape = x.shape
    ∧ (ResBlock.call x.c none bn p x).shape = x.shape := by
  refine ⟨?_, ?_, ?_, ?_⟩
  · cases bn <;> rfl
  · rfl
  · cases bn <;>
      simp [ResBlock.convLayers, applySLayers, SLayer.apply, List.insertIdx,
        List.modifyTailIdx, conv2dSame, conv2dValid, bnApply, Tensor3.map,
        Tensor3.shape, sameOut, validOut]
  · rfl

/-- C7: a ResBlock whose two convolutions have all weights and all biases
equal to zero is the identity: the inner transform contributes zero at every
index, so the residual output equals the input. -/
theorem C7_zero_weights_identity (mc : Option ℕ) (bn : Bool) (p : ResBlockParams)
    (x : Tensor3)
    (hw1 : p.w1 = zeroConvW) (hb1 : p.b1 = zeroBiasFn)
    (hw2 : p.w2 = zeroConvW) (hb2 : p.b2 = zeroBiasFn) :
    ResBlock.call x.c mc bn p x = x := by
  have hzero : ∀ i j k,
      (applySLayers (ResBlock.convLayers x.c mc bn p) x).data i j k = 0 := by
    intro i j k
    cases bn <;>
      simp [ResBlock.convLayers, applySLayers, SLayer.apply, List.insertIdx,
        List.modifyTailIdx, conv2dValid, hw2, hb2, zeroConvW, zeroBiasFn]
  cases x with
  | mk xh xw xc xd =>
    show Tensor3.add _ _ = _
    simp only [Tensor3.add]
    congr 1
    funext i j k
    rw [hzero i j k, add_zero]

/-- Witness for C7 at concrete zero parameters and a concrete tensor. -/
theorem C7_zero_weights_identity_witness :
    rbP0.w1 = zeroConvW ∧ rbP0.b1 = zeroBiasFn ∧ rbP0.w2 = zeroConvW
    ∧ rbP0.b2 = zeroBiasFn ∧ ResBlock.call x441.c none true rbP0 x441 = x441 :=
  ⟨rfl, rfl, rfl, rfl, C7_zero_weights_identity none true rbP0 x441 rfl rfl rfl rfl⟩

/-- C9: modelled from the spec (helpers/quantizers.py is not among the
provided sources) — the straight-through quantizer forward pass
output = input + stop_gradient(quantized - input) returns, at every index, the
value of the gathered nearest codebook vector, while its tangent (directional
derivative with respect to the layer input) equals the input's tangent, i.e.
the Jacobian of the layer with respect to its input acts as the identity. -/
theorem C9_straight_through (vq : VQLayer) (x : DTensor) (i j d : ℕ) :
    (vq_forward_st vq x).val i j d
      = vq.codebook (nearest_index vq.codebook vq.numEmbeddings x.c (fun e => x.val i j e)) d
    ∧ (vq_forward_st vq x).tan i j d = x.tan i j d := by
  constructor
  · show x.val i j d + _ = _
    simp only [vq_forward_st, DTensor.add, DTensor.sub, stop_gradient, quantizeD]
    ring
  · show x.tan i j d + 0 = x.tan i j d
    rw [add_zero]

/-- Counterexample for C2 as stated: with the module constants valued by
consts0 (commitment cost 0), no configuration of get_image_vqvae produces a
quantizer whose commitment cost is 1, because the builder always passes the
module constant COMMITMENT_COST and accepts no commitment-cost argument. -/
theorem C2_counterexample : ¬ C2_claim_as_stated := by
  intro h
  obtain ⟨A, P, hval⟩ := h 1
  have hconst : (get_image_vqvae consts0 A P).vq.commitmentCost = 0 := by
    cases hA : A.ema <;>
      simp [get_image_vqvae, VQLayer.commitmentCost, hA, consts0]
  rw [hval] at hconst
  exact one_ne_zero hconst

/-- C2 (amended): get_image_vqvae accepts neither commitment_cost nor decay;
for every valuation of the module constants and every configuration, the
quantizer it builds carries commitment cost COMMITMENT_COST, and decay DECAY
exactly in the EMA branch. -/
theorem C2_amended_constants (C : Constants) (A : VQVAEArgs) (P : VQVAEParams) :
    (get_image_vqvae C A P).vq.commitmentCost = C.COMMITMENT_COST
    ∧ (get_image_vqvae C A P).vq.decayOpt = (if A.ema then some C.DECAY else none) := by
  cases hA : A.ema <;>
    simp [get_image_vqvae, VQLayer.commitmentCost, VQLayer.decayOpt, hA]

/-- C4: the encoder chain is two stride-2 4x4 convolutions, each followed by a
leaky-rectified activation and a normalization step, then num_resblocks
residual blocks each optionally followed by a normalization step; and on an
input of shape (H, W, 3) with H and W divisible by 4 its output feature grid
has shape (H / 4, W / 4, latent_dim). -/
theorem C4_encoder_structure_and_shape (latent_dim num_resblocks : ℕ)
    (batchnorm : Bool) (p : EncoderParams) (H W : ℕ) (hH : 4 ∣ H) (hW : 4 ∣ W) :
    get_encoder_layers latent_dim num_resblocks batchnorm p
      = encoder_spec_layers latent_dim num_resblocks batchnorm p
    ∧ seqOutShape (get_encoder_layers latent_dim num_resblocks batchnorm p) (H, W, 3)
      = (H / 4, W / 4, latent_dim) := by
  constructor
  · rfl
  · obtain ⟨mH, rfl⟩ := hH
    obtain ⟨mW, rfl⟩ := hW
    rw [get_encoder_layers, seqOutShape_append, enc_res_stage_preserve]
    simp [seqOutShape, layerOutShape, sameOut]
    omega

/-- Witness for C4 at a concrete configuration: latent_dim 5, one residual
block, batchnorm off, zero parameters, on an 8 x 8 x 3 input shape. -/
theorem C4_encoder_structure_and_shape_witness :
    (4 ∣ 8)
    ∧ (get_encoder_layers 5 1 false encP0 = encoder_spec_layers 5 1 false encP0
       ∧ seqOutShape (get_encoder_layers 5 1 false encP0) (8, 8, 3) = (8 / 4, 8 / 4, 5)) :=
  ⟨⟨2, rfl⟩, C4_encoder_structure_and_shape 5 1 false encP0 8 8 ⟨2, rfl⟩ ⟨2, rfl⟩⟩

/-- C5: the decoder chain is one stride-1 4x4 convolution, then num_resblocks
residual blocks without normalization inside, then two stride-2 4x4 transposed
convolutions each followed by a leaky-rectified activation and a
normalization, then a final stride-1 4x4 transposed convolution to
num_channels channels followed only by the hyperbolic tangent; and on an input
feature grid of shape (h, w, latent_dim) its output has shape
(4h, 4w, num_channels). -/
theorem C5_decoder_structure_and_shape (latent_dim num_resblocks num_channels : ℕ)
    (p : DecoderParams) (h w : ℕ) :
    get_decoder_layers latent_dim num_resblocks num_channels p
      = decoder_spec_layers latent_dim num_resblocks num_channels p
    ∧ seqOutShape (get_decoder_layers latent_dim num_resblocks num_channels p)
        (h, w, latent_dim) = (4 * h, 4 * w, num_channels) := by
  constructor
  · simp [get_decoder_layers, decoder_spec_layers, upsample_block, List.append_assoc]
  · rw [get_decoder_layers, seqOutShape_append, seqOutShape_append,
      dec_res_stage_preserve]
    simp [seqOutShape, layerOutShape, sameOut]
    omega

/-- C10: the batchnorm flag only controls normalization in the encoder's
residual-block section — with batchnorm = False the encoder still places a
BatchNormalization after each of its two strided convolutions (and its
residual section is bare residual blocks); and for every configuration,
including batchnorm = True, every residual block of the composed model's
decoder is built with its inner normalization off, because get_decoder exposes
no normalization option and get_image_vqvae does not forward the flag. -/
theorem C10_batchnorm_flag_scope (latent_dim num_resblocks : ℕ) (p : EncoderParams)
    (C : Constants) (A : VQVAEArgs) (P : VQVAEParams) :
    get_encoder_layers latent_dim num_resblocks false p
      = [Layer.conv2d latent_dim 4 2 false p.cw1 zeroBiasFn, Layer.leaky_relu,
         Layer.batch_norm p.bn1,
         Layer.conv2d latent_dim 4 2 false p.cw2 zeroBiasFn, Layer.leaky_relu,
         Layer.batch_norm p.bn2]
        ++ (List.range num_resblocks).map (fun i =>
             Layer.res_block latent_dim none false (p.resP i))
    ∧ (get_image_vqvae C A P).decoder.layers.all layer_res_without_bn = true := by
  constructor
  · simp [get_encoder_layers, flatMap_singleton_eq_map]
  · rfl

/-- C8: calling the composed model on an image whose shape differs from the
declared image_shape + (num_channels,) yields a descriptive shape error — the
input is never reshaped or truncated (the validation is the tf.keras input
check, modelled in VQVAEModel.callChecked). -/
theorem C8_shape_mismatch_error (C : Constants) (A : VQVAEArgs) (P : VQVAEParams)
    (x : Tensor3) (hx : x.shape ≠ (get_image_vqvae C A P).inputShape) :
    (get_image_vqvae C A P).callChecked x
      = Except.error (shapeErr x.shape (get_image_vqvae C A P).inputShape) := by
  unfold VQVAEModel.callChecked
  rw [if_neg hx]

/-- Witness for C8: a 4 x 4 x 1 tensor against a model declared on
(8, 8, 1). -/
theorem C8_shape_mismatch_error_witness :
    x441.shape ≠ (get_image_vqvae consts0 argsC1 params0).inputShape
    ∧ (get_image_vqvae consts0 argsC1 params0).callChecked x441
      = Except.error (shapeErr x441.shape (get_image_vqvae consts0 argsC1 params0).inputShape) :=
  ⟨by decide, C8_shape_mismatch_error consts0 argsC1 params0 x441 (by decide)⟩

/-- Sequential application distributes over concatenation of layer chains. -/
theorem applyLayers_append (l1 l2 : List Layer) (x : Tensor3) :
    applyLayers (l1 ++ l2) x = applyLayers l2 (applyLayers l1 x) := by
  simp [applyLayers, List.foldl_append]

/-- C6: every entry of the composed model's forward output lies in [-1, 1],
because the decoder chain ends in the hyperbolic-tangent activation. -/
theorem C6_output_bounded (C : Constants) (A : VQVAEArgs) (P : VQVAEParams)
    (x : Tensor3) (i j ch : ℕ) :
    -1 ≤ ((get_image_vqvae C A P).forwardRaw x).data i j ch
    ∧ ((get_image_vqvae C A P).forwardRaw x).data i j ch ≤ 1 := by
  have hsplit : (get_image_vqvae C A P).decoder.layers
      = ([Layer.conv2d A.latent_dim 4 1 false P.dec.cw0 zeroBiasFn]
         ++ (List.range 2).map (fun k =>
              Layer.res_block A.latent_dim none false (P.dec.resP k))
         ++ [Layer.conv2d_transpose A.latent_dim 4 2 P.dec.tw1, Layer.leaky_relu,
             Layer.batch_norm P.dec.bn1,
             Layer.conv2d_transpose A.latent_dim 4 2 P.dec.tw2, Layer.leaky_relu,
             Layer.batch_norm P.dec.bn2,
             Layer.conv2d_transpose 3 4 1 P.dec.tw3])
        ++ [Layer.tanh_act] := by
    simp [get_image_vqvae, get_decoder, get_decoder_layers, List.append_assoc]
  rw [VQVAEModel.forwardRaw, hsplit, applyLayers_append]
  exact ⟨neg_one_le_tanh _, tanh_le_one _⟩

/-- C1 (evaluating the code at the failing input): with image_shape (8, 8) and
num_channels 1, the composed model declares input shape (8, 8, 1) but its
output shape is (8, 8, 3) — line 134 of helpers/model.py builds the decoder
without forwarding num_channels, so get_decoder's default 3 is used and the
output shape differs from the input shape. -/
theorem C1_output_shape_bug :
    (get_image_vqvae consts0 argsC1 params0).inputShape = (8, 8, 1)
    ∧ (get_image_vqvae consts0 argsC1 params0).output_shape = (8, 8, 3)
    ∧ ((8, 8, 3) : ℕ × ℕ × ℕ) ≠ (8, 8, 1) := by
  refine ⟨rfl, ?_, by decide⟩
  rfl

end VQVAE
